import Mathlib

/-!
Shallow embedding of the currency mini-agent (tc_complete_currency.py):
the currency tools (resolve_currency, convert over a static rate table)
and the tool-dispatch loop of ToolExecutor.run.

Modelling conventions:
* Python float amounts and rates are embedded as exact rationals; the
  decimal literals of RATE_TABLE are taken at face value.
* Python round(x, 4) is embedded as decimal rounding half-to-even at
  four fractional digits.
* Python str.strip / str.upper / str.lower are embedded character-wise
  over the underlying character list (the inputs in use are ASCII,
  where the Lean character case maps agree with Python).
-/

namespace Currency

/-- Python str.strip target characters, restricted to ASCII whitespace. -/
def isPySpace (c : Char) : Bool :=
  c = ' ' || c = '\t' || c = '\n' || c = '\r' || c = '\x0b' || c = '\x0c'

/-- Model of str.strip on the character list: drop whitespace at both ends. -/
def pyStripL (l : List Char) : List Char :=
  ((l.dropWhile isPySpace).reverse.dropWhile isPySpace).reverse

/-- Model of str.upper, character-wise. -/
def pyUpperL (l : List Char) : List Char :=
  l.map Char.toUpper

/-- Model of str.lower, character-wise. -/
def pyLowerL (l : List Char) : List Char :=
  l.map Char.toLower

/-- RATE_TABLE from the source, keys "BASE->QUOTE", float values as exact rationals. -/
def RATE_TABLE : List (String × ℚ) :=
  [("USD->THB", 35.0),
   ("THB->USD", 0.0286),
   ("THB->EUR", 0.025),
   ("EUR->THB", 40.0),
   ("USD->EUR", 0.92),
   ("EUR->USD", 1.087)]

/-- SUPPORTED from the source. -/
def SUPPORTED : List String := ["USD", "THB", "EUR", "JPY"]

/-- NAME_TO_ISO from the source, as an association list. -/
def NAME_TO_ISO : List (String × String) :=
  [("baht", "THB"), ("dollar", "USD"), ("euro", "EUR"), ("yen", "JPY")]

/-- CurrencyTools.list_supported: returns SUPPORTED. -/
def list_supported : List String := SUPPORTED

/-- CurrencyTools.resolve_currency: strip and upper-case the input; if the
result is a supported code return it, otherwise look the stripped
lower-cased input up in NAME_TO_ISO, defaulting to "UNKNOWN". -/
def resolve_currency (name_or_code : String) : String :=
  let code := String.mk (pyUpperL (pyStripL name_or_code.data))
  if code ∈ SUPPORTED then code
  else ((NAME_TO_ISO.lookup (String.mk (pyLowerL (pyStripL name_or_code.data)))).getD "UNKNOWN")

/-- Round a rational to the nearest integer, ties to even (Python round). -/
def roundHalfEvenInt (q : ℚ) : ℤ :=
  let f := ⌊q⌋
  let r := q - f
  if r < 1/2 then f
  else if r > 1/2 then f + 1
  else if Even f then f else f + 1

/-- Model of round(x, 4): round to four decimal places. -/
def round4 (q : ℚ) : ℚ :=
  (roundHalfEvenInt (q * 10000) : ℚ) / 10000

/-- Lexicographic code-point comparison of character lists (Python string order). -/
def charListLe : List Char → List Char → Bool
  | [], _ => true
  | _ :: _, [] => false
  | a :: as, b :: bs => if a < b then true else if b < a then false else charListLe as bs

/-- Ascending string order used by sorted(). -/
def strLe (a b : String) : Bool := charListLe a.data b.data

/-- Insert a string into an ascending list, keeping it ascending. -/
def insertSorted (x : String) : List String → List String
  | [] => [x]
  | y :: ys => if strLe x y then x :: y :: ys else y :: insertSorted x ys

/-- Model of sorted() on a list of strings: ascending insertion sort. -/
def sortStrings (l : List String) : List String := l.foldr insertSorted []

/-- sorted(RATE_TABLE.keys()): the rate-table keys in ascending order. -/
def RATE_TABLE_keys_sorted : List String :=
  sortStrings (RATE_TABLE.map Prod.fst)

/-- Structured result value of CurrencyTools.convert: the success dict, the
UNKNOWN_CURRENCY error dict (error tag, supported list, original base and
quote inputs in the hint), or the missing-rate error dict (error message and
sorted known pairs). -/
inductive ConvertResult where
  | ok (amount : ℚ) (base : String) (quote : String) (rate : ℚ) (converted : ℚ)
  | unknownCurrency (error : String) (supported : List String) (base : String) (quote : String)
  | noRate (error : String) (supported_pairs : List String)
  deriving DecidableEq

/-- CurrencyTools.convert: resolve both currencies, fail on an unknown one,
look the ordered pair up in RATE_TABLE, fail when absent, otherwise convert
and round to four decimals.  (The float(amount) sanitisation of the source
cannot fail here because the embedded amount is already numeric.) -/
def convert (amount : ℚ) (base : String) (quote : String) : ConvertResult :=
  let base_resolved := resolve_currency base
  let quote_resolved := resolve_currency quote
  if base_resolved = "UNKNOWN" ∨ quote_resolved = "UNKNOWN" then
    ConvertResult.unknownCurrency "UNKNOWN_CURRENCY" SUPPORTED base quote
  else
    let pair := base_resolved ++ "->" ++ quote_resolved
    match RATE_TABLE.lookup pair with
    | none => ConvertResult.noRate ("No rate for " ++ pair) RATE_TABLE_keys_sorted
    | some rate => ConvertResult.ok amount base_resolved quote_resolved rate (round4 (amount * rate))

end Currency

namespace Dispatch

/-- The function_call payload of a provider response: a tool name and the raw
JSON argument string (none models a missing or null attribute). -/
structure ToolCall where
  name : String
  arguments : Option String
  deriving DecidableEq

/-- One completion() response: an optional function_call and optional text. -/
structure ProviderResponse where
  function_call : Option ToolCall
  content : Option String
  deriving DecidableEq

/-- A conversation turn: the user message, the assistant turn recording a
requested call, or the function-result turn carrying the serialised result. -/
inductive Message where
  | user (content : String)
  | assistant_fc (name : String) (arguments : Option String)
  | function_result (name : String) (content : String)
  deriving DecidableEq

/-- Decoded JSON argument object: keyword names with raw value payloads. -/
abbrev RArgs := List (String × String)

/-- Outcome of the guarded tool-execution block: the callable result, or the
structured error dict built from a caught exception message. -/
inductive ToolResult (V : Type) where
  | value (v : V)
  | error (msg : String)
  deriving DecidableEq

/-- The argument string handed to json.loads:
getattr(fc, "arguments", "\x7b\x7d") or "\x7b\x7d". -/
def argStrForDecode (a : Option String) : String :=
  match a with
  | none => "\x7b\x7d"
  | some s => if s = "" then "\x7b\x7d" else s

/-- An ASCII single quote. -/
def squote : Char := Char.ofNat 39

/-- Python str() of the KeyError raised by indexing an absent registry name. -/
def keyErrorMsg (name : String) : String :=
  String.mk (squote :: name.data ++ [squote])

/-- self.tools[name] lookup in the registry. -/
def lookupTool {V : Type} (tools : List (String × (RArgs → Except String V)))
    (name : String) : Option (RArgs → Except String V) :=
  tools.lookup name

/-- Collapse an Except-valued callable invocation into the try-block result. -/
def toolResultOfExcept {V : Type} : Except String V → ToolResult V
  | Except.ok v => ToolResult.value v
  | Except.error e => ToolResult.error e

/-- The try/except tool-execution block of ToolExecutor.run: decode the raw
argument string (a decoder error models a json.loads exception), index the
registry (a miss models the KeyError), invoke the callable (with no arguments
when the decoded object is empty), and turn any raised error into the
structured error result. -/
def execStep {V : Type} (tools : List (String × (RArgs → Except String V)))
    (jsonLoads : String → Except String RArgs) (fc : ToolCall) : ToolResult V :=
  match jsonLoads (argStrForDecode fc.arguments) with
  | Except.error e => ToolResult.error e
  | Except.ok args =>
    match lookupTool tools fc.name with
    | none => ToolResult.error (keyErrorMsg fc.name)
    | some f => toolResultOfExcept (if args.isEmpty then f [] else f args)

/-- How an invocation of the dispatch loop ended: a response without a
function_call (FINAL printed with its content), or the turn cap ran out. -/
inductive LoopExit where
  | answered (content : Option String)
  | exhausted
  deriving DecidableEq

/-- Result of a dispatch-loop run: how it ended, how many completion() calls
it made, and the final conversation. -/
structure RunOutcome where
  exit : LoopExit
  calls : ℕ
  messages : List Message
  deriving DecidableEq

/-- The turn loop of ToolExecutor.run, structurally recursive on the number of
remaining turns. Each iteration issues one completion() call (modelled by the
provider function applied to the current conversation); a response without a
function_call ends the run with its content; otherwise the guarded tool
execution runs and the assistant and function turns are appended (the function
turn carries the result serialised by dumps, modelling json.dumps). -/
def runAux {V : Type} (provider : List Message → ProviderResponse)
    (tools : List (String × (RArgs → Except String V)))
    (jsonLoads : String → Except String RArgs) (dumps : ToolResult V → String) :
    ℕ → ℕ → List Message → RunOutcome
  | 0, calls, msgs => ⟨LoopExit.exhausted, calls, msgs⟩
  | fuel + 1, calls, msgs =>
    let resp := provider msgs
    match resp.function_call with
    | none => ⟨LoopExit.answered resp.content, calls + 1, msgs⟩
    | some fc =>
      let result := execStep tools jsonLoads fc
      runAux provider tools jsonLoads dumps fuel (calls + 1)
        (msgs ++ [Message.assistant_fc fc.name fc.arguments,
                  Message.function_result fc.name (dumps result)])

/-- ToolExecutor.run: start from the single user turn with max_turns turns. -/
def run {V : Type} (provider : List Message → ProviderResponse)
    (tools : List (String × (RArgs → Except String V)))
    (jsonLoads : String → Except String RArgs) (dumps : ToolResult V → String)
    (user_text : String) (max_turns : ℕ) : RunOutcome :=
  runAux provider tools jsonLoads dumps max_turns 0 [Message.user user_text]

/-- Fixture: a decoder that accepts only the empty JSON object text. -/
def jlFix : String → Except String RArgs :=
  fun s => if s = "\x7b\x7d" then Except.ok [] else Except.error ("Expecting value: " ++ s)

/-- Fixture: a callable that returns normally. -/
def toolOkFix : RArgs → Except String String := fun _ => Except.ok "ran"

/-- Fixture: a callable that raises. -/
def toolBoomFix : RArgs → Except String String := fun _ => Except.error "boom"

/-- Fixture: a two-entry registry. -/
def toolsFix : List (String × (RArgs → Except String String)) :=
  [("t", toolOkFix), ("boom", toolBoomFix)]

/-- Fixture: serialisation of results. -/
def dumpsFix : ToolResult String → String
  | ToolResult.value v => v
  | ToolResult.error e => "error: " ++ e

/-- Fixture: a provider that immediately answers without a function call. -/
def provFinal : List Message → ProviderResponse := fun _ => ⟨none, some "done"⟩

/-- Fixture: a provider that always requests the raising callable. -/
def provBoom : List Message → ProviderResponse := fun _ => ⟨some ⟨"boom", none⟩, none⟩

end Dispatch

namespace Currency

/-- Unfolding lemma: convert on an unresolvable currency. -/
lemma convert_eq_unknown (a : ℚ) (b q : String)
    (h : resolve_currency b = "UNKNOWN" ∨ resolve_currency q = "UNKNOWN") :
    convert a b q = ConvertResult.unknownCurrency "UNKNOWN_CURRENCY" SUPPORTED b q := by
  simp only [convert]
  rw [if_pos h]

/-- Unfolding lemma: convert when the resolved pair has no table entry. -/
lemma convert_eq_noRate (a : ℚ) (b q : String)
    (hb : resolve_currency b ≠ "UNKNOWN") (hq : resolve_currency q ≠ "UNKNOWN")
    (hl : RATE_TABLE.lookup (resolve_currency b ++ "->" ++ resolve_currency q) = none) :
    convert a b q
      = ConvertResult.noRate ("No rate for " ++ (resolve_currency b ++ "->" ++ resolve_currency q))
          RATE_TABLE_keys_sorted := by
  simp only [convert]
  rw [if_neg (by tauto), hl]

/-- Unfolding lemma: convert on a resolvable pair with a table entry. -/
lemma convert_eq_ok (a : ℚ) (b q : String) (rate : ℚ)
    (hb : resolve_currency b ≠ "UNKNOWN") (hq : resolve_currency q ≠ "UNKNOWN")
    (hl : RATE_TABLE.lookup (resolve_currency b ++ "->" ++ resolve_currency q) = some rate) :
    convert a b q
      = ConvertResult.ok a (resolve_currency b) (resolve_currency q) rate (round4 (a * rate)) := by
  simp only [convert]
  rw [if_neg (by tauto), hl]

/-- The NAME_TO_ISO default lookup only produces the four ISO codes or UNKNOWN. -/
lemma lookup_name_to_iso_getD (k : String) :
    (NAME_TO_ISO.lookup k).getD "UNKNOWN" ∈ (["THB", "USD", "EUR", "JPY", "UNKNOWN"] : List String) := by
  simp only [NAME_TO_ISO, List.lookup]
  repeat' split
  all_goals simp

/-- resolve_currency only produces supported codes or the UNKNOWN sentinel. -/
lemma resolve_range (s : String) :
    resolve_currency s ∈ (["THB", "USD", "EUR", "JPY", "UNKNOWN"] : List String) := by
  simp only [resolve_currency]
  split
  · next h =>
      simp only [SUPPORTED, List.mem_cons, List.not_mem_nil, or_false] at h
      simp only [List.mem_cons, List.not_mem_nil, or_false]
      tauto
  · exact lookup_name_to_iso_getD _

end Currency

open Currency in
/-- C1: convert is deterministic and pure (a total Lean function of its three
arguments, no effects), and convert(100, "USD", "THB") is the structured
success result with amount 100, base "USD", quote "THB", rate 35.0 and
converted 3500.0. -/
theorem convert_deterministic_and_usd_thb_example :
    (∀ (a : ℚ) (b q : String), convert a b q = convert a b q)
    ∧ convert 100 "USD" "THB" = ConvertResult.ok 100 "USD" "THB" 35 3500 := by
  refine ⟨fun a b q => rfl, ?_⟩
  have h := convert_eq_ok 100 "USD" "THB" (35.0 : ℚ) (by decide) (by decide) rfl
  rw [h, show resolve_currency "USD" = "USD" from by decide,
      show resolve_currency "THB" = "THB" from by decide]
  norm_num [ConvertResult.ok.injEq, round4, roundHalfEvenInt]

open Currency in
/-- C4: whenever either currency argument resolves to the UNKNOWN sentinel,
convert returns the structured UNKNOWN_CURRENCY error result carrying the
supported set and the two original inputs; being a total function, it never
raises. -/
theorem convert_unknown_currency (a : ℚ) (b q : String)
    (h : resolve_currency b = "UNKNOWN" ∨ resolve_currency q = "UNKNOWN") :
    convert a b q = ConvertResult.unknownCurrency "UNKNOWN_CURRENCY" SUPPORTED b q :=
  convert_eq_unknown a b q h

open Currency in
/-- C4 witness: convert(10, "ABC", "USD") hits the unknown-currency branch. -/
theorem convert_unknown_currency_witness :
    resolve_currency "ABC" = "UNKNOWN"
    ∧ convert 10 "ABC" "USD" = ConvertResult.unknownCurrency "UNKNOWN_CURRENCY" SUPPORTED "ABC" "USD" :=
  ⟨by decide, convert_unknown_currency 10 "ABC" "USD" (Or.inl (by decide))⟩

open Currency in
/-- C5: when both currencies resolve to supported codes but the ordered pair is
absent from RATE_TABLE, convert returns the structured missing-rate error
result listing all known pairs in sorted order; being total, it never raises. -/
theorem convert_missing_rate (a : ℚ) (b q : String)
    (hb : resolve_currency b ≠ "UNKNOWN") (hq : resolve_currency q ≠ "UNKNOWN")
    (hl : RATE_TABLE.lookup (resolve_currency b ++ "->" ++ resolve_currency q) = none) :
    convert a b q
      = ConvertResult.noRate ("No rate for " ++ (resolve_currency b ++ "->" ++ resolve_currency q))
          RATE_TABLE_keys_sorted :=
  convert_eq_noRate a b q hb hq hl

open Currency in
/-- C5 witness: convert(5, "JPY", "USD") hits the missing-rate branch and the
error payload lists the six known pairs. -/
theorem convert_missing_rate_witness :
    resolve_currency "JPY" = "JPY" ∧ resolve_currency "USD" = "USD"
    ∧ RATE_TABLE.lookup ("JPY" ++ "->" ++ "USD") = none
    ∧ convert 5 "JPY" "USD" = ConvertResult.noRate "No rate for JPY->USD" RATE_TABLE_keys_sorted
    ∧ RATE_TABLE_keys_sorted
        = ["EUR->THB", "EUR->USD", "THB->EUR", "THB->USD", "USD->EUR", "USD->THB"] := by
  refine ⟨by decide, by decide, by decide, ?_, by decide⟩
  have h := convert_missing_rate 5 "JPY" "USD" (by decide) (by decide) (by decide)
  exact h.trans (by decide)

open Currency in
/-- C9: every successful conversion carries converted = round4(amount * rate)
where rate is the table rate of the resolved pair; round4 always yields a value
with at most four decimal places; and convert(250, "THB", "EUR") yields
converted = round(250 * 0.025, 4) = 6.25. -/
theorem convert_rounded_four_decimals :
    (∀ (a : ℚ) (b q : String) (rate : ℚ),
        resolve_currency b ≠ "UNKNOWN" → resolve_currency q ≠ "UNKNOWN" →
        RATE_TABLE.lookup (resolve_currency b ++ "->" ++ resolve_currency q) = some rate →
        convert a b q
          = ConvertResult.ok a (resolve_currency b) (resolve_currency q) rate (round4 (a * rate)))
    ∧ (∀ x : ℚ, (round4 x * 10000).den = 1)
    ∧ convert 250 "THB" "EUR" = ConvertResult.ok 250 "THB" "EUR" (0.025 : ℚ) (6.25 : ℚ) := by
  refine ⟨fun a b q rate hb hq hl => convert_eq_ok a b q rate hb hq hl, ?_, ?_⟩
  · intro x
    unfold round4
    rw [div_mul_cancel₀ _ (by norm_num : (10000 : ℚ) ≠ 0)]
    exact Rat.den_intCast _
  · have h := convert_eq_ok 250 "THB" "EUR" (0.025 : ℚ) (by decide) (by decide) rfl
    rw [h, show resolve_currency "THB" = "THB" from by decide,
        show resolve_currency "EUR" = "EUR" from by decide]
    norm_num [ConvertResult.ok.injEq, round4, roundHalfEvenInt]

open Currency in
/-- C9 witness: the general success shape instantiated at 250 THB to EUR. -/
theorem convert_rounded_four_decimals_witness :
    RATE_TABLE.lookup (resolve_currency "THB" ++ "->" ++ resolve_currency "EUR") = some (0.025 : ℚ)
    ∧ convert 250 "THB" "EUR"
        = ConvertResult.ok 250 (resolve_currency "THB") (resolve_currency "EUR") (0.025 : ℚ)
            (round4 (250 * (0.025 : ℚ))) :=
  ⟨rfl, convert_rounded_four_decimals.1 250 "THB" "EUR" (0.025 : ℚ) (by decide) (by decide) rfl⟩

namespace Currency

/-- Upper-casing after lower-casing is plain upper-casing (ASCII case maps). -/
lemma char_toUpper_toLower (c : Char) : c.toLower.toUpper = c.toUpper := by
  have key : ∀ n : ℕ, 65 ≤ n → n ≤ 90 → (Char.ofNat n).toLower.toUpper = (Char.ofNat n).toUpper := by
    intro n h1 h2
    interval_cases n <;> decide
  by_cases h : 65 ≤ c.toNat ∧ c.toNat ≤ 90
  · have hk := key c.toNat h.1 h.2
    rwa [Char.ofNat_toNat] at hk
  · have hl : c.toLower = c := by
      simp only [Char.toLower]
      rw [if_neg h]
    rw [hl]

/-- Upper-casing a lower-cased character list equals upper-casing the list. -/
lemma pyUpperL_pyLowerL (l : List Char) : pyUpperL (pyLowerL l) = pyUpperL l := by
  simp only [pyUpperL, pyLowerL, List.map_map]
  exact List.map_congr_left fun c _ => char_toUpper_toLower c

/-- resolve_currency is determined by the alias branch whenever the stripped,
lower-cased input is a NAME_TO_ISO key whose upper-cased form is unsupported. -/
lemma resolve_of_lower_eq (s key iso : String)
    (hk : NAME_TO_ISO.lookup key = some iso)
    (hup : String.mk (pyUpperL key.data) ∉ SUPPORTED)
    (h : pyLowerL (pyStripL s.data) = key.data) :
    resolve_currency s = iso := by
  have hu : pyUpperL (pyStripL s.data) = pyUpperL key.data := by
    rw [← pyUpperL_pyLowerL (pyStripL s.data), h]
  have hmk : String.mk key.data = key := rfl
  simp only [resolve_currency]
  rw [hu, h, if_neg hup, hmk, hk]
  rfl

/-- resolve_currency is idempotent. -/
lemma resolve_idem (s : String) : resolve_currency (resolve_currency s) = resolve_currency s := by
  have h := resolve_range s
  simp only [List.mem_cons, List.not_mem_nil, or_false] at h
  rcases h with h | h | h | h | h <;> rw [h] <;> decide

end Currency

open Currency in
/-- C8: resolve_currency is idempotent; an already-supported ISO code resolves
to itself; and any input whose stripped lower-cased form is one of the known
alias names resolves to the fixed ISO code of that alias, regardless of letter
case or surrounding whitespace, in particular " Baht " resolves to "THB". -/
theorem resolve_currency_idempotent_spec :
    (∀ c, c ∈ SUPPORTED → resolve_currency c = c)
    ∧ (∀ s : String, pyLowerL (pyStripL s.data) = "baht".data → resolve_currency s = "THB")
    ∧ (∀ s : String, pyLowerL (pyStripL s.data) = "dollar".data → resolve_currency s = "USD")
    ∧ (∀ s : String, pyLowerL (pyStripL s.data) = "euro".data → resolve_currency s = "EUR")
    ∧ (∀ s : String, pyLowerL (pyStripL s.data) = "yen".data → resolve_currency s = "JPY")
    ∧ resolve_currency " Baht " = "THB"
    ∧ (∀ s : String, resolve_currency (resolve_currency s) = resolve_currency s) := by
  refine ⟨?_, ?_, ?_, ?_, ?_, by decide, resolve_idem⟩
  · intro c hc
    simp only [SUPPORTED, List.mem_cons, List.not_mem_nil, or_false] at hc
    rcases hc with h | h | h | h <;> subst h <;> decide
  · exact fun s h => resolve_of_lower_eq s "baht" "THB" rfl (by decide) h
  · exact fun s h => resolve_of_lower_eq s "dollar" "USD" rfl (by decide) h
  · exact fun s h => resolve_of_lower_eq s "euro" "EUR" rfl (by decide) h
  · exact fun s h => resolve_of_lower_eq s "yen" "JPY" rfl (by decide) h

open Currency in
/-- C8 witness: the ISO clause at "USD" and the alias clause at " Baht ". -/
theorem resolve_currency_idempotent_spec_witness :
    "USD" ∈ SUPPORTED ∧ resolve_currency "USD" = "USD"
    ∧ pyLowerL (pyStripL (" Baht " : String).data) = "baht".data
    ∧ resolve_currency " Baht " = "THB" :=
  ⟨by decide, resolve_currency_idempotent_spec.1 "USD" (by decide), by decide,
   resolve_currency_idempotent_spec.2.1 " Baht " (by decide)⟩

open Currency in
/-- C10 counterexample: convert(1, "JPY", "ABC") has a base resolving to "JPY"
yet returns the unknown-currency error result, not the missing-rate one, so
JPY in the base or quote does not always produce the missing-rate error. -/
theorem convert_jpy_counterexample :
    resolve_currency "JPY" = "JPY"
    ∧ resolve_currency "ABC" = "UNKNOWN"
    ∧ convert 1 "JPY" "ABC" = ConvertResult.unknownCurrency "UNKNOWN_CURRENCY" SUPPORTED "JPY" "ABC" := by
  refine ⟨by decide, by decide, ?_⟩
  exact convert_eq_unknown 1 "JPY" "ABC" (Or.inr (by decide))

open Currency in
/-- C10 amended: "JPY" is supported (so resolve_currency accepts it and "yen"),
no rate-table entry involves JPY, and every convert call whose base and quote
both resolve to supported codes with at least one resolving to "JPY" returns
the missing-rate error result; no such call returns a success result. -/
theorem convert_jpy_always_missing_rate :
    "JPY" ∈ SUPPORTED
    ∧ resolve_currency "JPY" = "JPY"
    ∧ resolve_currency "yen" = "JPY"
    ∧ (∀ x, x ∈ SUPPORTED →
        RATE_TABLE.lookup ("JPY" ++ "->" ++ x) = none ∧ RATE_TABLE.lookup (x ++ "->" ++ "JPY") = none)
    ∧ (∀ (a : ℚ) (b q : String),
        resolve_currency b ≠ "UNKNOWN" → resolve_currency q ≠ "UNKNOWN" →
        (resolve_currency b = "JPY" ∨ resolve_currency q = "JPY") →
        convert a b q
          = ConvertResult.noRate
              ("No rate for " ++ (resolve_currency b ++ "->" ++ resolve_currency q))
              RATE_TABLE_keys_sorted) := by
  refine ⟨by decide, by decide, by decide, ?_, ?_⟩
  · intro x hx
    simp only [SUPPORTED, List.mem_cons, List.not_mem_nil, or_false] at hx
    rcases hx with h | h | h | h <;> subst h <;> exact ⟨by decide, by decide⟩
  · intro a b q hb hq hj
    apply convert_eq_noRate a b q hb hq
    have Hb := resolve_range b
    have Hq := resolve_range q
    simp only [List.mem_cons, List.not_mem_nil, or_false] at Hb Hq
    rcases Hb with hb1 | hb1 | hb1 | hb1 | hb1 <;> rcases Hq with hq1 | hq1 | hq1 | hq1 | hq1 <;>
      rw [hb1, hq1] at hj ⊢ <;> first | decide | simp at hj

open Currency in
/-- C10 amended witness: convert(3, "yen", "usd") resolves to the JPY->USD pair
and returns the missing-rate error listing the known pairs. -/
theorem convert_jpy_always_missing_rate_witness :
    resolve_currency "yen" = "JPY" ∧ resolve_currency "usd" = "USD"
    ∧ convert 3 "yen" "usd" = ConvertResult.noRate "No rate for JPY->USD" RATE_TABLE_keys_sorted := by
  refine ⟨by decide, by decide, ?_⟩
  have h := convert_jpy_always_missing_rate.2.2.2.2 3 "yen" "usd" (by decide) (by decide)
    (Or.inl (by decide))
  exact h.trans (by decide)

namespace Dispatch

/-- Each loop entry adds at most one completion call per unit of fuel. -/
lemma runAux_calls_le {V : Type} (provider : List Message → ProviderResponse)
    (tools : List (String × (RArgs → Except String V)))
    (jsonLoads : String → Except String RArgs) (dumps : ToolResult V → String)
    (fuel : ℕ) : ∀ (calls : ℕ) (msgs : List Message),
    (runAux provider tools jsonLoads dumps fuel calls msgs).calls ≤ calls + fuel := by
  induction fuel with
  | zero => intro calls msgs; simp [runAux]
  | succ n ih =>
    intro calls msgs
    simp only [runAux]
    split
    · simp
    · exact (ih (calls + 1) _).trans (by omega)

end Dispatch

open Dispatch in
/-- C2: a dispatch-loop run performs at most max_turns completion calls, for
every user text, every provider behaviour, every registry, decoder and
serialiser, even if the provider requests a function call in every response. -/
theorem run_calls_le_max_turns {V : Type} (provider : List Message → ProviderResponse)
    (tools : List (String × (RArgs → Except String V)))
    (jsonLoads : String → Except String RArgs) (dumps : ToolResult V → String)
    (user_text : String) (max_turns : ℕ) :
    (run provider tools jsonLoads dumps user_text max_turns).calls ≤ max_turns := by
  have h := runAux_calls_le provider tools jsonLoads dumps max_turns 0 [Message.user user_text]
  simpa [run] using h

open Dispatch in
/-- C3 counterexample: with a registered callable and an invalid JSON argument
string the decoder raises, the caught exception becomes the error result, and
the callable (which would have returned "ran") is never invoked, contradicting
the claim that an invalid argument string is decoded to the empty object. -/
theorem execStep_invalid_json_counterexample :
    jlFix "bad" = Except.error "Expecting value: bad"
    ∧ lookupTool toolsFix "t" = some toolOkFix
    ∧ (∀ args : RArgs, toolOkFix args = Except.ok "ran")
    ∧ execStep toolsFix jlFix ⟨"t", some "bad"⟩ = ToolResult.error "Expecting value: bad"
    ∧ execStep toolsFix jlFix ⟨"t", some "bad"⟩ ≠ ToolResult.value "ran" :=
  ⟨rfl, rfl, fun _ => rfl, rfl, by decide⟩

open Dispatch in
/-- C3 amended: in a dispatch iteration carrying a function call, an absent or
empty argument string is decoded to the empty object and the registered
callable is invoked with it; an argument string the decoder rejects instead
yields the structured error result of the raised exception, without invoking
the callable. -/
theorem execStep_argument_decoding {V : Type}
    (tools : List (String × (RArgs → Except String V)))
    (jsonLoads : String → Except String RArgs) (n : String)
    (f : RArgs → Except String V)
    (hreg : lookupTool tools n = some f)
    (hempty : jsonLoads "\x7b\x7d" = Except.ok []) :
    execStep tools jsonLoads ⟨n, none⟩ = toolResultOfExcept (f [])
    ∧ execStep tools jsonLoads ⟨n, some ""⟩ = toolResultOfExcept (f [])
    ∧ (∀ s e, s ≠ "" → jsonLoads s = Except.error e →
        execStep tools jsonLoads ⟨n, some s⟩ = ToolResult.error e) := by
  refine ⟨?_, ?_, ?_⟩
  · simp [execStep, argStrForDecode, hempty, hreg]
  · simp [execStep, argStrForDecode, hempty, hreg]
  · intro s e hs he
    simp [execStep, argStrForDecode, hs, he]

open Dispatch in
/-- C3 amended witness: absent and empty argument strings invoke the fixture
callable with the empty object; an invalid one yields the decoder error. -/
theorem execStep_argument_decoding_witness :
    lookupTool toolsFix "t" = some toolOkFix
    ∧ jlFix "\x7b\x7d" = Except.ok []
    ∧ execStep toolsFix jlFix ⟨"t", none⟩ = ToolResult.value "ran"
    ∧ execStep toolsFix jlFix ⟨"t", some ""⟩ = ToolResult.value "ran"
    ∧ execStep toolsFix jlFix ⟨"t", some "oops"⟩ = ToolResult.error "Expecting value: oops" := by
  have h := execStep_argument_decoding toolsFix jlFix "t" toolOkFix rfl rfl
  exact ⟨rfl, rfl, h.1, h.2.1, h.2.2 "oops" "Expecting value: oops" (by decide) rfl⟩

open Dispatch in
/-- C6: at any iteration with remaining turns whose provider response carries
no function call, the loop ends at that iteration with the answered outcome,
its final value is exactly the textual content of that response, exactly this
one further completion call is made, and the conversation is left unchanged. -/
theorem run_answered_on_no_function_call {V : Type}
    (provider : List Message → ProviderResponse)
    (tools : List (String × (RArgs → Except String V)))
    (jsonLoads : String → Except String RArgs) (dumps : ToolResult V → String)
    (fuel calls : ℕ) (msgs : List Message)
    (hf : 0 < fuel) (h : (provider msgs).function_call = none) :
    runAux provider tools jsonLoads dumps fuel calls msgs
      = ⟨LoopExit.answered (provider msgs).content, calls + 1, msgs⟩ := by
  cases fuel with
  | zero => exact absurd hf (Nat.lt_irrefl 0)
  | succ n =>
    simp only [runAux]
    rw [h]

open Dispatch in
/-- C6 witness: a provider that immediately answers ends the loop on turn one
with its content as the final value. -/
theorem run_answered_on_no_function_call_witness :
    0 < 3 ∧ (provFinal [Message.user "hi"]).function_call = none
    ∧ runAux provFinal toolsFix jlFix dumpsFix 3 0 [Message.user "hi"]
        = ⟨LoopExit.answered (some "done"), 1, [Message.user "hi"]⟩ :=
  ⟨by decide, rfl,
   run_answered_on_no_function_call provFinal toolsFix jlFix dumpsFix 3 0
     [Message.user "hi"] (by decide) rfl⟩

open Dispatch in
/-- C7: when the provider requests a registered callable and its invocation
raises, the exception is caught at the dispatch boundary and becomes the
structured error result, whose serialisation is appended as the function-result
turn after the assistant turn recording the call, and the loop proceeds to the
next iteration instead of aborting. -/
theorem run_tool_fault_caught {V : Type}
    (provider : List Message → ProviderResponse)
    (tools : List (String × (RArgs → Except String V)))
    (jsonLoads : String → Except String RArgs) (dumps : ToolResult V → String)
    (fuel calls : ℕ) (msgs : List Message) (fc : ToolCall) (args : RArgs)
    (f : RArgs → Except String V) (e : String)
    (hfc : (provider msgs).function_call = some fc)
    (hdec : jsonLoads (argStrForDecode fc.arguments) = Except.ok args)
    (hreg : lookupTool tools fc.name = some f)
    (hexn : (if args.isEmpty then f [] else f args) = Except.error e) :
    runAux provider tools jsonLoads dumps (fuel + 1) calls msgs
      = runAux provider tools jsonLoads dumps fuel (calls + 1)
          (msgs ++ [Message.assistant_fc fc.name fc.arguments,
                    Message.function_result fc.name (dumps (ToolResult.error e))]) := by
  have hstep : execStep tools jsonLoads fc = ToolResult.error e := by
    simp only [execStep, hdec, hreg, hexn, toolResultOfExcept]
  simp only [runAux, hfc]
  rw [hstep]

open Dispatch in
/-- C7 witness: a raising callable yields the serialised error turn and the
loop continues into the next iteration (here exhausting its last turn). -/
theorem run_tool_fault_caught_witness :
    (provBoom [Message.user "hi"]).function_call = some ⟨"boom", none⟩
    ∧ jlFix (argStrForDecode none) = Except.ok []
    ∧ lookupTool toolsFix "boom" = some toolBoomFix
    ∧ toolBoomFix [] = Except.error "boom"
    ∧ runAux provBoom toolsFix jlFix dumpsFix 1 0 [Message.user "hi"]
        = ⟨LoopExit.exhausted, 1,
           [Message.user "hi", Message.assistant_fc "boom" none,
            Message.function_result "boom" "error: boom"]⟩ := by
  refine ⟨rfl, rfl, rfl, rfl, ?_⟩
  have h := run_tool_fault_caught provBoom toolsFix jlFix dumpsFix 0 0 [Message.user "hi"]
    ⟨"boom", none⟩ [] toolBoomFix "boom" rfl rfl rfl rfl
  exact h.trans rfl
